import Mathlib

/-!
Shallow embedding of the Pioneer AVR telnet driver
(`custom_components/pioneer/media_player.py` and `const.py`).

Modelling conventions:
* Python strings are Lean `String`s; `s[i:]` slicing is by characters
  (`strDrop`), `str.startswith` is `strStartsWith`, `str(i).zfill(2)` and the
  `f"{n:03}"` format are `zfill`.
* Python dicts (insertion ordered, unique keys) are association lists with
  `dictGet` (first match) and `dictInsert` (replace the first binding in place,
  else append) - exactly Python assignment semantics on well-formed dicts.
* The telnet connection is a `connected` flag (connection refused when false)
  plus a list of inbound `\r\n`-terminated lines; each `read_until` with its
  0.2 s timeout either consumes the next line or, when the stream is
  exhausted, times out yielding the empty string.
* `float(...)` is modelled on the fragment the wire produces: an unsigned
  digit string parses to its value, anything else raises `ValueError`
  (`PyErr.valueError`).  `round` is Python's float round-half-to-even
  (`pythonRound` on `ℚ`; every value reaching it here is exactly
  representable).
* Python exceptions escaping a function are the `Except.error` results;
  `KeyError` from `ZONE_COMMANDS[self._zone]` is `PyErr.keyError`.
-/

namespace Pioneer

/-- Model of Python `str.startswith`: character-list prefix test. -/
def strStartsWith (t p : String) : Bool :=
  p.data.isPrefixOf t.data

/-- Model of Python slicing `t[n:]` (by characters; the protocol is ASCII). -/
def strDrop (t : String) (n : Nat) : String :=
  String.mk (t.data.drop n)

/-- Model of Python `str.zfill(w)` / the `f"{n:0w}"` format for the
non-negative values produced here: left-pad with `'0'` to width `w`. -/
def zfill (w : Nat) (t : String) : String :=
  if w ≤ t.length then t else String.mk (List.replicate (w - t.length) '0') ++ t

/-- Model of Python `float(...)` on the digit-string fragment of its domain:
an unsigned digit string parses to its (rational) value, anything else raises
`ValueError` (represented by `none`). -/
def pyFloatDigits (t : String) : Option ℚ :=
  if t.data ≠ [] ∧ t.data.all Char.isDigit then
    some ((t.data.foldl (fun n c => 10 * n + (c.toNat - 48)) 0 : ℕ) : ℚ)
  else none

/-- Model of Python 3 `round` on exactly-representable values:
round half to even. -/
def pythonRound (q : ℚ) : ℤ :=
  let f : ℤ := ⌊q⌋
  if q - f < 1 / 2 then f
  else if 1 / 2 < q - f then f + 1
  else if f % 2 = 0 then f else f + 1

/-- `MAX_VOLUME = 185` from `const.py`. -/
def MAX_VOLUME : ℚ := 185

/-- `MAX_SOURCE_NUMBERS = 60` from `const.py`. -/
def MAX_SOURCE_NUMBERS : Nat := 60

/-- `DEFAULT_SOURCES` from `const.py`, in its Python insertion order. -/
def DEFAULT_SOURCES : List (String × String) :=
  [("Phono", "00"), ("CD", "01"), ("Tuner", "02"), ("CD-R/Tape", "03"),
   ("DVD", "04"), ("TV/Sat", "05"), ("Sat/Cbl", "06"), ("Video 1", "10"),
   ("Multi Channel In", "12"), ("Video 2", "14"), ("DVR/BDR", "15"),
   ("iPod/USB", "17"), ("XM Radio", "18"), ("HDMI 1", "19"), ("HDMI 2", "20"),
   ("HDMI 3", "21"), ("HDMI 4", "22"), ("HDMI 5", "23"), ("HDMI 6", "24"),
   ("Blu-Ray", "25"), ("Home Media Gallery (Internet Radio)", "26"),
   ("Sirius", "27"), ("Adapter Port", "33"), ("Netradio", "38"),
   ("Media Server", "44"), ("Favorites", "45"), ("Game", "49")]

/-- A query entry of `ZONE_COMMANDS`: the wire command and the expected reply
prefix (`"COMMAND"` / `"PREFIX"` keys in `const.py`). -/
structure QueryCmd where
  cmd : String
  pfx : String
deriving Repr, DecidableEq

/-- One zone's entry of `ZONE_COMMANDS` in `const.py`; action entries carry
only their `"COMMAND"` string. -/
structure ZoneCommandSet where
  POWER : QueryCmd
  VOL : QueryCmd
  MUTE : QueryCmd
  SOURCE_NUM : QueryCmd
  TURN_OFF : String
  VOL_UP : String
  VOL_DOWN : String
  VOL_LEVEL : String
  MUTE_VOL : String
  UNMUTE_VOL : String
  TURN_ON : String
  SELECT_SOURCE : String
  MUTED_VALUE : String
deriving Repr, DecidableEq

/-- `ZONE_COMMANDS` from `const.py`: keys 1 and 2 only; any other zone
identifier raises `KeyError` on subscription (modelled as `none`). -/
def ZONE_COMMANDS : Nat → Option ZoneCommandSet
  | 1 => some
      { POWER := ⟨"?P", "PWR"⟩, VOL := ⟨"?V", "VOL"⟩, MUTE := ⟨"?M", "MUT"⟩,
        SOURCE_NUM := ⟨"?F", "FN"⟩, TURN_OFF := "PF", VOL_UP := "VU",
        VOL_DOWN := "VD", VOL_LEVEL := "VL", MUTE_VOL := "MF",
        UNMUTE_VOL := "MO", TURN_ON := "PO", SELECT_SOURCE := "FN",
        MUTED_VALUE := "MUT0" }
  | 2 => some
      { POWER := ⟨"?AP", "APR"⟩, VOL := ⟨"?ZV", "ZV"⟩, MUTE := ⟨"?Z2M", "Z2MUT"⟩,
        SOURCE_NUM := ⟨"?ZS", "Z2F"⟩, TURN_OFF := "APF", VOL_UP := "ZU",
        VOL_DOWN := "ZD", VOL_LEVEL := "ZV", MUTE_VOL := "Z2MF",
        UNMUTE_VOL := "Z2MO", TURN_ON := "APO", SELECT_SOURCE := "ZS",
        MUTED_VALUE := "Z2MUT0" }
  | _ => none

/-- Python dict lookup `d.get(k)`: value of the first (on well-formed dicts,
only) binding of `k`. -/
def dictGet : List (String × String) → String → Option String
  | [], _ => none
  | p :: d, k => if p.1 = k then some p.2 else dictGet d k

/-- Python dict assignment `d[k] = v`: replace the first binding of `k` in
place, else append the new binding at the end (insertion order). -/
def dictInsert : List (String × String) → String → String → List (String × String)
  | [], k, v => [(k, v)]
  | p :: d, k, v => if p.1 = k then (k, v) :: d else p :: dictInsert d k v

/-- The two source maps are exact inverses of each other. -/
def invDicts (m1 m2 : List (String × String)) : Prop :=
  ∀ k v, dictGet m1 k = some v ↔ dictGet m2 v = some k

/-- Python exceptions that can escape the modelled driver code. -/
inductive PyErr
  | keyError
  | valueError
deriving Repr, DecidableEq

/-- The mutable per-zone instance state of `PioneerDevice` (`__init__`):
`_pwstate`, `_volume`, `_muted`, `_selected_source`, the two source maps and
`_zone`.  `name`, `host`, `port` and `timeout` only parameterize the
transport, which is modelled by the `connected` flag and the line stream. -/
structure PioneerDevice where
  pwstate : String
  volume : Option ℚ
  muted : Option Bool
  selected_source : Option String
  source_name_to_number : List (String × String)
  source_number_to_name : List (String × String)
  zone : Nat
deriving Repr, DecidableEq

/-- `PioneerDevice.__init__`: filter `DEFAULT_SOURCES` by the configured
allowlist (`key in sources`), build the reverse map by comprehension, and
initialize `_pwstate = "PWR1"`, `_volume = 0`, `_muted = False`,
`_selected_source = ""`. -/
def pioneerInit (sources : List String) (zone : Nat) : PioneerDevice :=
  let source_list := DEFAULT_SOURCES.filter (fun p => sources.contains p.1)
  { pwstate := "PWR1"
    volume := some 0
    muted := some false
    selected_source := some ""
    source_name_to_number := source_list
    source_number_to_name := source_list.foldl (fun d p => dictInsert d p.2 p.1) []
    zone := zone }

/-- `async_setup_entry`: one `PioneerDevice` per `zone in range(0, zones)`. -/
def async_setup_entry (sources : List String) (zones : Nat) : List PioneerDevice :=
  (List.range zones).map (fun zone => pioneerInit sources zone)

/-- The bounded read loop of `telnet_request`: at most `fuel` (= 3)
`read_until(b"\r\n", timeout=0.2)` attempts.  Each attempt consumes the next
inbound line; an exhausted stream times out, yielding the empty string, which
never matches a (non-empty) expected reply prefix. -/
def telnetRead : Nat → List String → String → Option String × List String
  | 0, lines, _ => (none, lines)
  | n + 1, [], expected => telnetRead n [] expected
  | n + 1, l :: rest, expected =>
      if strStartsWith l expected then (some l, rest) else telnetRead n rest expected

/-- `PioneerDevice.telnet_request`: write the command (a timed-out write
returns `None` at once), then read up to 3 lines, returning the first one
that starts with the expected prefix, else `None`. -/
def telnet_request (writeTimeout : Bool) (lines : List String)
    (command expected : String) : Option String × List String :=
  if writeTimeout then (none, lines) else telnetRead 3 lines expected

/-- Power query step of `update`: `if pwstate: self._pwstate = pwstate`
(Python truthiness: `None` and the empty string both leave it unchanged). -/
def powerStep (zc : ZoneCommandSet) (s : PioneerDevice) (lines : List String) :
    PioneerDevice × List String :=
  let r := telnet_request false lines zc.POWER.cmd zc.POWER.pfx
  ({ s with pwstate :=
      match r.1 with
      | none => s.pwstate
      | some t => if t = "" then s.pwstate else t }, r.2)

/-- Volume decode of `update`:
`float(volume_str[3:]) / MAX_VOLUME if volume_str else None`.
A matched reply whose suffix after dropping three characters is not a number
raises `ValueError`. -/
def volVal : Option String → Except PyErr (Option ℚ)
  | none => .ok none
  | some t =>
      if t = "" then .ok none
      else
        match pyFloatDigits (strDrop t 3) with
        | some q => .ok (some (q / MAX_VOLUME))
        | none => .error .valueError

/-- Volume query step of `update`: always assigns `self._volume` (to `None`
when there is no matched reply). -/
def volStep (zc : ZoneCommandSet) (s : PioneerDevice) (lines : List String) :
    Except PyErr (PioneerDevice × List String) :=
  let r := telnet_request false lines zc.VOL.cmd zc.VOL.pfx
  match volVal r.1 with
  | .error e => .error e
  | .ok v => .ok ({ s with volume := v }, r.2)

/-- Mute query step of `update`:
`self._muted = (muted_value == zone_commands["MUTED_VALUE"]["COMMAND"]) if muted_value else None`. -/
def muteStep (zc : ZoneCommandSet) (s : PioneerDevice) (lines : List String) :
    PioneerDevice × List String :=
  let r := telnet_request false lines zc.MUTE.cmd zc.MUTE.pfx
  ({ s with muted :=
      match r.1 with
      | none => none
      | some t => if t = "" then none else some (t == zc.MUTED_VALUE) }, r.2)

/-- The source-name learning loop of `update`: for each index `i`, query
`?RGB<i zero-padded>` expecting prefix `RGB`; skip on no data, else record
`result[6:]` against `str(i).zfill(2)` in both maps. -/
def learnSources :
    List Nat → List String →
    List (String × String) × List (String × String) →
    (List (String × String) × List (String × String)) × List String
  | [], lines, maps => (maps, lines)
  | i :: is, lines, maps =>
      let r := telnet_request false lines ("?RGB" ++ zfill 2 (toString i)) "RGB"
      match r.1 with
      | none => learnSources is r.2 maps
      | some t =>
          if t = "" then learnSources is r.2 maps
          else
            learnSources is r.2
              (dictInsert maps.1 (strDrop t 6) (zfill 2 (toString i)),
               dictInsert maps.2 (zfill 2 (toString i)) (strDrop t 6))

/-- The `(source name, source number)` pairs the learning loop records, in
order, for a given index list and inbound stream (specification helper for
stating distinctness of learned names). -/
def learnTrace : List Nat → List String → List (String × String)
  | [], _ => []
  | i :: is, lines =>
      let r := telnet_request false lines ("?RGB" ++ zfill 2 (toString i)) "RGB"
      match r.1 with
      | none => learnTrace is r.2
      | some t =>
          if t = "" then learnTrace is r.2
          else (strDrop t 6, zfill 2 (toString i)) :: learnTrace is r.2

/-- Learning step of `update`: runs only when `self._source_name_to_number`
is (falsy, i.e.) empty. -/
def learnStep (s : PioneerDevice) (lines : List String) :
    PioneerDevice × List String :=
  if s.source_name_to_number = [] then
    let r := learnSources (List.range MAX_SOURCE_NUMBERS) lines
      (s.source_name_to_number, s.source_number_to_name)
    ({ s with source_name_to_number := r.1.1, source_number_to_name := r.1.2 }, r.2)
  else (s, lines)

/-- Active-source query step of `update`: resolve `source_number[2:]` through
the reverse map, else `self._selected_source = None`. -/
def sourceStep (zc : ZoneCommandSet) (s : PioneerDevice) (lines : List String) :
    PioneerDevice × List String :=
  let r := telnet_request false lines zc.SOURCE_NUM.cmd zc.SOURCE_NUM.pfx
  ({ s with selected_source :=
      match r.1 with
      | none => none
      | some t =>
          if t = "" then none
          else dictGet s.source_number_to_name (strDrop t 2) }, r.2)

/-- `PioneerDevice.update`: `False` when the connection is refused, else the
power, volume, mute, (conditional) learning and active-source steps in order,
then `True`.  An uncaught Python exception is an `Except.error`. -/
def update (s : PioneerDevice) (connected : Bool) (lines : List String) :
    Except PyErr (Bool × PioneerDevice) :=
  if connected then
    match ZONE_COMMANDS s.zone with
    | none => .error .keyError
    | some zc =>
      let p := powerStep zc s lines
      match volStep zc p.1 p.2 with
      | .error e => .error e
      | .ok v =>
        let m := muteStep zc v.1 v.2
        let l := learnStep m.1 m.2
        let sn := sourceStep zc l.1 l.2
        .ok (true, sn.1)
  else .ok (false, s)

/-- The source maps the caller observes after a poll: the returned state's
maps on success, the instance's (unchanged, since the only uncaught
exceptions of `update` are raised before the learning loop) maps when an
exception escaped. -/
def mapsAfterUpdate (s : PioneerDevice) (e : Except PyErr (Bool × PioneerDevice)) :
    List (String × String) × List (String × String) :=
  match e with
  | .ok (_, s') => (s'.source_name_to_number, s'.source_number_to_name)
  | .error _ => (s.source_name_to_number, s.source_number_to_name)

/-- Source maps observable after one connected poll of `s` on `lines`. -/
def updateMaps (s : PioneerDevice) (lines : List String) :
    List (String × String) × List (String × String) :=
  mapsAfterUpdate s (update s true lines)

/-- The inbound stream as it reaches the learning loop: what is left after
the power, volume and mute queries have read from it. -/
def postMuteLines (zc : ZoneCommandSet) (lines : List String) : List String :=
  (telnet_request false
    ((telnet_request false
      ((telnet_request false lines zc.POWER.cmd zc.POWER.pfx).2)
      zc.VOL.cmd zc.VOL.pfx).2)
    zc.MUTE.cmd zc.MUTE.pfx).2

/-- The volume query's matched reply (if any) for a connected poll on
`lines`: what `telnet_request` returns for the `VOL` query after the `POWER`
query has consumed its part of the stream. -/
def volReplyOf (zc : ZoneCommandSet) (lines : List String) : Option String :=
  (telnet_request false
    ((telnet_request false lines zc.POWER.cmd zc.POWER.pfx).2)
    zc.VOL.cmd zc.VOL.pfx).1

/-- Decidable guard: the volume query's matched reply (if any) on this stream
decodes without raising (`float` succeeds, or the reply is falsy/absent). -/
def volSafeB (zc : ZoneCommandSet) (lines : List String) : Bool :=
  match volReplyOf zc lines with
  | none => true
  | some t => (t == "") || (pyFloatDigits (strDrop t 3)).isSome

/-- Guard: a poll result is a normal return of `True`. -/
def returnsTrue : Except PyErr (Bool × PioneerDevice) → Bool
  | .ok (true, _) => true
  | _ => false

/-- The reported media-player power states (the two members of the host enum
this integration produces). -/
inductive MediaPlayerState
  | ON
  | OFF
deriving Repr, DecidableEq

/-- The `state` property: `"PWR2"` and `"PWR1"` report off, `"PWR0"` reports
on, anything else reports `None` (unknown). -/
def state (s : PioneerDevice) : Option MediaPlayerState :=
  if s.pwstate = "PWR2" then some MediaPlayerState.OFF
  else if s.pwstate = "PWR1" then some MediaPlayerState.OFF
  else if s.pwstate = "PWR0" then some MediaPlayerState.ON
  else none

/-- The `volume_level` property. -/
def volume_level (s : PioneerDevice) : Option ℚ := s.volume

/-- The `is_volume_muted` property. -/
def is_volume_muted (s : PioneerDevice) : Option Bool := s.muted

/-- The `source` property. -/
def source (s : PioneerDevice) : Option String := s.selected_source

/-- The `source_list` property. -/
def source_list (s : PioneerDevice) : List String :=
  s.source_name_to_number.map Prod.fst

/-- `turn_off`: fire-and-forget `telnet_command` of the zone's `TURN_OFF`
wire text; returns the emitted command and the (untouched) instance state.
`none` models the `KeyError` of an unsupported zone. -/
def turn_off (s : PioneerDevice) : Option (String × PioneerDevice) :=
  (ZONE_COMMANDS s.zone).map (fun zc => (zc.TURN_OFF, s))

/-- `turn_on`: emits the zone's `TURN_ON` wire text. -/
def turn_on (s : PioneerDevice) : Option (String × PioneerDevice) :=
  (ZONE_COMMANDS s.zone).map (fun zc => (zc.TURN_ON, s))

/-- `volume_up`: emits the zone's `VOL_UP` wire text. -/
def volume_up (s : PioneerDevice) : Option (String × PioneerDevice) :=
  (ZONE_COMMANDS s.zone).map (fun zc => (zc.VOL_UP, s))

/-- `volume_down`: emits the zone's `VOL_DOWN` wire text. -/
def volume_down (s : PioneerDevice) : Option (String × PioneerDevice) :=
  (ZONE_COMMANDS s.zone).map (fun zc => (zc.VOL_DOWN, s))

/-- `set_volume_level(volume)`: emits
`f"{round(volume * MAX_VOLUME):03}{vol_command}"`. -/
def set_volume_level (s : PioneerDevice) (volume : ℚ) :
    Option (String × PioneerDevice) :=
  (ZONE_COMMANDS s.zone).map
    (fun zc => (zfill 3 (toString (pythonRound (volume * MAX_VOLUME))) ++ zc.VOL_LEVEL, s))

/-- `mute_volume(mute)`: emits `UNMUTE_VOL` when `mute` is true, else
`MUTE_VOL` (the source's own branch order). -/
def mute_volume (s : PioneerDevice) (mute : Bool) :
    Option (String × PioneerDevice) :=
  (ZONE_COMMANDS s.zone).map
    (fun zc => ((if mute then zc.UNMUTE_VOL else zc.MUTE_VOL), s))

/-- `select_source(source)`: emits
`f"{self._source_name_to_number.get(source)}{source_command}"`; an unknown
name interpolates Python `None` as the text `"None"`. -/
def select_source (s : PioneerDevice) (src : String) :
    Option (String × PioneerDevice) :=
  (ZONE_COMMANDS s.zone).map
    (fun zc =>
      ((match dictGet s.source_name_to_number src with
        | some code => code
        | none => "None") ++ zc.SELECT_SOURCE, s))

/-! ### Helper lemmas -/

/-- An exhausted stream yields nothing on any index list: the learning loop
leaves the maps untouched. -/
theorem learnSources_nil_stream (is : List Nat) :
    ∀ maps, learnSources is [] maps = (maps, []) := by
  induction is with
  | nil => intro maps; rfl
  | cons i is ih => intro maps; exact ih maps

/-- The learning step on an exhausted stream is the identity. -/
theorem learnStep_nil (s : PioneerDevice) : learnStep s [] = (s, []) := by
  unfold learnStep
  by_cases h : s.source_name_to_number = []
  · rw [if_pos h, learnSources_nil_stream]
  · rw [if_neg h]

/-- One connected poll on an exhausted stream: the power code survives, while
volume, mute and active source are reset to `None`. -/
theorem update_nil_stream {zc : ZoneCommandSet} (s : PioneerDevice)
    (hz : ZONE_COMMANDS s.zone = some zc) :
    update s true [] =
      .ok (true, { s with volume := none, muted := none, selected_source := none }) := by
  simp only [update, hz, if_true, powerStep, volStep, muteStep, sourceStep,
    telnet_request, telnetRead, volVal, learnStep_nil, Bool.false_eq_true, if_false]

/-! ### C9 -/

/-- Claim C9: immediately after construction a zone instance's stored power
code is the off code `"PWR1"`, so the `state` accessor reports off — not
unknown. -/
theorem C9_initial_state_off (sources : List String) (zone : Nat) :
    (pioneerInit sources zone).pwstate = "PWR1" ∧
    state (pioneerInit sources zone) = some MediaPlayerState.OFF :=
  ⟨rfl, rfl⟩

/-! ### C1 -/

/-- Claim C1 (refuted as stated; the code is the slip): platform setup
constructs zone identifiers `range(0, zones)`, i.e. 0 (and 1) — zone 0 is
outside the supported set {1, 2}, `ZONE_COMMANDS` has no entry for it, and
the `KeyError` is raised by the first poll (`update`), not at construction
(`pioneerInit` succeeds for any zone). -/
theorem C1_setup_zone_out_of_range :
    (async_setup_entry [] 1).map (fun d => d.zone) = [0] ∧
    (async_setup_entry [] 2).map (fun d => d.zone) = [0, 1] ∧
    ZONE_COMMANDS 0 = none ∧
    update (pioneerInit [] 0) true [] = .error .keyError :=
  ⟨rfl, rfl, rfl, rfl⟩

/-! ### C5 -/

/-- Python `round(0.5 * 185)` is 92: the product is exactly 92.5 and round
half to even rounds down to the even integer. -/
theorem pythonRound_half_max : pythonRound ((1 / 2 : ℚ) * MAX_VOLUME) = 92 := by
  have hf : ⌊(1 / 2 : ℚ) * MAX_VOLUME⌋ = 92 := by norm_num [MAX_VOLUME]
  simp only [pythonRound, hf]
  rw [if_neg (by norm_num [MAX_VOLUME]), if_neg (by norm_num [MAX_VOLUME]),
    if_pos (by decide)]

/-- Claim C5 counterexample: `setVolume(0.5)` on a zone-2 instance emits
`"092ZV"`, not the claimed `"093ZV"` — Python `round` is half-to-even, so
`round(0.5 * 185) = round(92.5) = 92`. -/
theorem C5_counterexample :
    (set_volume_level (pioneerInit [] 2) (1 / 2)).map Prod.fst = some "092ZV" ∧
    (set_volume_level (pioneerInit [] 2) (1 / 2)).map Prod.fst ≠ some "093ZV" := by
  simp only [set_volume_level, pioneerInit, pythonRound_half_max]
  exact ⟨by decide, by decide⟩

/-- Claim C5 (amended): `setVolume(0.5)` on any zone-2 instance emits exactly
the wire command `"092ZV"` (`round(0.5*185) = 92` under round-half-to-even,
zero-padded to three digits, followed by the zone-2 volume-level wire text). -/
theorem C5_amended_set_volume_zone2 (s : PioneerDevice) (hz : s.zone = 2) :
    (set_volume_level s (1 / 2)).map Prod.fst = some "092ZV" := by
  simp only [set_volume_level, hz, pythonRound_half_max, ZONE_COMMANDS,
    Option.map_some']
  rfl

/-- Witness for the amended C5 at a concrete zone-2 instance. -/
theorem C5_amended_set_volume_zone2_witness :
    (set_volume_level (pioneerInit ["CD"] 2) (1 / 2)).map Prod.fst = some "092ZV" :=
  C5_amended_set_volume_zone2 (pioneerInit ["CD"] 2) rfl

/-! ### C4 -/

/-- Python `round(1.0 * 185)` is 185. -/
theorem pythonRound_one_max : pythonRound ((1 : ℚ) * MAX_VOLUME) = 185 := by
  have hf : ⌊(1 : ℚ) * MAX_VOLUME⌋ = 185 := by norm_num [MAX_VOLUME]
  simp only [pythonRound, hf]
  rw [if_pos (by norm_num [MAX_VOLUME])]

/-- Claim C4 (code bug, zone 2): encoding the fraction 1 gives wire value
185; the reply `"ZV185"` echoing it decodes through `volume_str[3:]` — which
drops a digit past the two-character zone-2 prefix — to 85/185 ≈ 0.459, not
within one wire unit of 1. (For zone 1 the three-character prefix makes the
same slice correct.) -/
theorem C4_zone2_volume_decode :
    volVal (some ("ZV" ++ zfill 3 (toString (pythonRound ((1 : ℚ) * MAX_VOLUME))))) =
      .ok (some (85 / 185 : ℚ)) ∧
    ¬ (|(85 / 185 : ℚ) - 1| ≤ 1 / 185) := by
  constructor
  · rw [pythonRound_one_max]
    have h1 : ("ZV" ++ zfill 3 (toString (185 : ℤ))) = "ZV185" := rfl
    rw [h1]
    have h2 : pyFloatDigits (strDrop "ZV185" 3) = some ((85 : ℕ) : ℚ) := by
      have hd : (("85".data.foldl (fun n c => 10 * n + (c.toNat - 48)) 0 : ℕ)) = 85 := rfl
      rw [show strDrop "ZV185" 3 = "85" from rfl, pyFloatDigits, if_pos (by decide), hd]
    rw [volVal, if_neg (by decide), h2]
    norm_num [MAX_VOLUME]
  · have h3 : (85 / 185 : ℚ) - 1 = -(20 / 37) := by norm_num
    rw [h3, abs_neg, abs_of_nonneg (by norm_num : (0 : ℚ) ≤ 20 / 37)]
    norm_num

/-! ### C2 -/

/-- A concrete zone-1 instance that has observed power on, volume 1/2, muted
and an active DVD source. -/
def demoDevice : PioneerDevice :=
  { (pioneerInit ["DVD"] 1) with
    pwstate := "PWR0"
    volume := some (1 / 2)
    muted := some true
    selected_source := some "DVD" }

/-- Claim C2 counterexample: a poll in which no query receives a matching
reply resets volume (and mute and active source) to `None`; the previous
volume 1/2 is not retained. -/
theorem C2_counterexample :
    update demoDevice true [] =
      .ok (true, { demoDevice with
        volume := none
        muted := none
        selected_source := none }) ∧
    demoDevice.volume = some (1 / 2) :=
  ⟨rfl, rfl⟩

/-- Claim C2 (amended): when no query of a poll cycle receives a matching
reply, only the stored power code is left at its previous value; the volume,
mute and active-source fields are reset to `None` (unknown), not left at
their previous values. -/
theorem C2_amended_unmatched_reset (s : PioneerDevice)
    (hz : s.zone = 1 ∨ s.zone = 2) :
    update s true [] =
      .ok (true, { s with volume := none, muted := none, selected_source := none }) := by
  obtain ⟨zc, hzc⟩ : ∃ zc, ZONE_COMMANDS s.zone = some zc := by
    rcases hz with h | h <;> rw [h] <;> exact ⟨_, rfl⟩
  exact update_nil_stream s hzc

/-- Witness for the amended C2 at a concrete zone-1 instance. -/
theorem C2_amended_unmatched_reset_witness :
    update (pioneerInit ["CD"] 1) true [] =
      .ok (true, { (pioneerInit ["CD"] 1) with
        volume := none
        muted := none
        selected_source := none }) :=
  C2_amended_unmatched_reset (pioneerInit ["CD"] 1) (Or.inl rfl)

/-! ### C3 -/

/-- Claim C3 counterexample: a zone-1 instance that reported on receives the
prefix-matching but malformed power reply `"PWR9"`; the malformed code is
stored and the reported state becomes `None` (unknown), not the previous
on. -/
theorem C3_counterexample :
    state demoDevice = some MediaPlayerState.ON ∧
    update demoDevice true ["PWR9"] =
      .ok (true, { demoDevice with
        pwstate := "PWR9"
        volume := none
        muted := none
        selected_source := none }) ∧
    state { demoDevice with
      pwstate := "PWR9"
      volume := none
      muted := none
      selected_source := none } = none :=
  ⟨rfl, rfl, rfl⟩

/-- Claim C3 (amended, zone 1): a missing power reply leaves the stored code
and hence the reported state unchanged, and the codes `PWR1`/`PWR2` report
off while `PWR0` reports on; but any prefix-matching reply overwrites the
stored code, so a malformed code such as `PWR9` (or any zone-2 `APR…` code)
makes the reported state `None` (unknown) rather than the previous value. -/
theorem C3_amended_power_decode (s : PioneerDevice) (hz : s.zone = 1) :
    (update s true [] =
      .ok (true, { s with volume := none, muted := none, selected_source := none })) ∧
    (∀ r : String, strStartsWith r "PWR" = true →
      update s true [r] =
        .ok (true, { s with
          pwstate := r
          volume := none
          muted := none
          selected_source := none })) ∧
    state { s with pwstate := "PWR1" } = some MediaPlayerState.OFF ∧
    state { s with pwstate := "PWR2" } = some MediaPlayerState.OFF ∧
    state { s with pwstate := "PWR0" } = some MediaPlayerState.ON ∧
    state { s with pwstate := "PWR9" } = none ∧
    state { s with pwstate := "APR0" } = none := by
  have hzc : ZONE_COMMANDS s.zone = some
      { POWER := ⟨"?P", "PWR"⟩, VOL := ⟨"?V", "VOL"⟩, MUTE := ⟨"?M", "MUT"⟩,
        SOURCE_NUM := ⟨"?F", "FN"⟩, TURN_OFF := "PF", VOL_UP := "VU",
        VOL_DOWN := "VD", VOL_LEVEL := "VL", MUTE_VOL := "MF",
        UNMUTE_VOL := "MO", TURN_ON := "PO", SELECT_SOURCE := "FN",
        MUTED_VALUE := "MUT0" } := by rw [hz]; rfl
  refine ⟨update_nil_stream s hzc, ?_, rfl, rfl, rfl, rfl, rfl⟩
  intro r hr
  have hne : r ≠ "" := by
    intro he
    rw [he] at hr
    exact absurd hr (by decide)
  simp only [update, hzc, if_true, powerStep, volStep, muteStep, sourceStep,
    telnet_request, telnetRead, volVal, Bool.false_eq_true, if_false, hr,
    hne, learnStep_nil]

/-- Witness for the amended C3: a malformed reply at a concrete instance. -/
theorem C3_amended_power_decode_witness :
    update (pioneerInit ["CD"] 1) true ["PWR5"] =
      .ok (true, { (pioneerInit ["CD"] 1) with
        pwstate := "PWR5"
        volume := none
        muted := none
        selected_source := none }) :=
  (C3_amended_power_decode (pioneerInit ["CD"] 1) rfl).2.1 "PWR5" (by decide)

/-! ### C6 -/

/-- Claim C6: for every query and inbound line stream made of `N` lines not
starting with the expected prefix followed by a matching line, the request
returns the matching line when `N < 3` and returns no data once 3 read
attempts are consumed without a match. -/
theorem C6_retry_budget (command expected : String) (pre : List String)
    (m : String) (rest : List String)
    (hpre : ∀ l ∈ pre, strStartsWith l expected = false)
    (hm : strStartsWith m expected = true) :
    (pre.length < 3 →
      (telnet_request false (pre ++ m :: rest) command expected).1 = some m) ∧
    (3 ≤ pre.length →
      (telnet_request false (pre ++ m :: rest) command expected).1 = none) := by
  constructor
  · intro hlen
    rcases pre with _ | ⟨a, _ | ⟨b, _ | ⟨c, t⟩⟩⟩
    · simp [telnet_request, telnetRead, hm]
    · simp [telnet_request, telnetRead, hpre a (by simp), hm]
    · simp [telnet_request, telnetRead, hpre a (by simp), hpre b (by simp), hm]
    · simp only [List.length_cons] at hlen; omega
  · intro hlen
    rcases pre with _ | ⟨a, _ | ⟨b, _ | ⟨c, t⟩⟩⟩
    · simp at hlen
    · simp at hlen
    · simp at hlen
    · simp [telnet_request, telnetRead, hpre a (by simp), hpre b (by simp),
        hpre c (by simp)]

/-- Witness for C6: one unrelated line before the matching power reply. -/
theorem C6_retry_budget_witness :
    (telnet_request false (["VOL100"] ++ "PWR0" :: []) "?P" "PWR").1 = some "PWR0" :=
  (C6_retry_budget "?P" "PWR" ["VOL100"] "PWR0" [] (by decide) (by decide)).1
    (by decide)

/-! ### C7 -/

/-- Claim C7 counterexample: with the connection established, a volume reply
that matches the `VOL` prefix but whose decoded suffix is not a number makes
`float(...)` raise `ValueError`, which escapes `update` — the poll does not
return a boolean. -/
theorem C7_counterexample :
    update (pioneerInit ["DVD"] 1) true ["PWR0", "VOLabc"] = .error .valueError :=
  rfl

/-- Claim C7 (amended): `update` returns `False` exactly when the connection
fails; when the connection is established it returns `True` regardless of how
many queries yielded no data, provided the matched volume reply (if any) has
a numeric suffix — a matched volume reply with a non-numeric suffix instead
raises an uncaught `ValueError`. -/
theorem C7_amended_update_result (s : PioneerDevice) (lines : List String)
    {zc : ZoneCommandSet} (hz : ZONE_COMMANDS s.zone = some zc)
    (hsafe : volSafeB zc lines = true) :
    update s false lines = .ok (false, s) ∧
    returnsTrue (update s true lines) = true := by
  refine ⟨rfl, ?_⟩
  have hvol : ∃ v, volVal (volReplyOf zc lines) = .ok v := by
    cases h : volReplyOf zc lines with
    | none => exact ⟨none, rfl⟩
    | some t =>
        simp only [volSafeB, h] at hsafe
        by_cases he : t = ""
        · exact ⟨none, by simp [volVal, he]⟩
        · cases hp : pyFloatDigits (strDrop t 3) with
          | none => rw [hp] at hsafe; simp [he] at hsafe
          | some q => exact ⟨some (q / MAX_VOLUME), by simp [volVal, he, hp]⟩
  obtain ⟨v, hv⟩ := hvol
  have hvs : volStep zc (powerStep zc s lines).1 (powerStep zc s lines).2 =
      .ok ({ (powerStep zc s lines).1 with volume := v },
        (telnet_request false (powerStep zc s lines).2 zc.VOL.cmd zc.VOL.pfx).2) := by
    have hrepl : (telnet_request false (powerStep zc s lines).2
        zc.VOL.cmd zc.VOL.pfx).1 = volReplyOf zc lines := rfl
    simp only [volStep]
    rw [hrepl, hv]
  simp only [update, hz, if_true, hvs]
  rfl

/-- Witness for the amended C7 at a concrete instance and stream. -/
theorem C7_amended_update_result_witness :
    update (pioneerInit ["DVD"] 1) false ["PWR0", "VOL100"] =
      .ok (false, pioneerInit ["DVD"] 1) ∧
    returnsTrue (update (pioneerInit ["DVD"] 1) true ["PWR0", "VOL100"]) = true :=
  C7_amended_update_result (pioneerInit ["DVD"] 1) ["PWR0", "VOL100"] rfl
    (by decide)

/-! ### C10 -/

/-- Claim C10: every action command method emits its wire command and leaves
every field of the zone instance's state snapshot unchanged. -/
theorem C10_actions_frame (s : PioneerDevice) (v : ℚ) (b : Bool) (src : String)
    (hz : s.zone = 1 ∨ s.zone = 2) :
    (turn_on s).map Prod.snd = some s ∧
    (turn_off s).map Prod.snd = some s ∧
    (volume_up s).map Prod.snd = some s ∧
    (volume_down s).map Prod.snd = some s ∧
    (set_volume_level s v).map Prod.snd = some s ∧
    (mute_volume s b).map Prod.snd = some s ∧
    (select_source s src).map Prod.snd = some s := by
  rcases hz with h | h <;>
    simp [turn_on, turn_off, volume_up, volume_down, set_volume_level,
      mute_volume, select_source, h, ZONE_COMMANDS]

/-- Witness for C10 at a concrete instance and arguments. -/
theorem C10_actions_frame_witness :
    (set_volume_level (pioneerInit ["CD"] 1) (1 / 2)).map Prod.snd =
      some (pioneerInit ["CD"] 1) :=
  (C10_actions_frame (pioneerInit ["CD"] 1) (1 / 2) true "CD" (Or.inl rfl)).2.2.2.2.1

/-! ### C8: dictionary lemmas -/

/-- Lookup after Python dict assignment: the assigned key reads the new
value, any other key is unaffected. -/
theorem dictGet_insert (d : List (String × String)) (k v k' : String) :
    dictGet (dictInsert d k v) k' = if k' = k then some v else dictGet d k' := by
  induction d with
  | nil =>
      by_cases h : k' = k
      · subst h; simp [dictInsert, dictGet]
      · simp [dictInsert, dictGet, h, show ¬ k = k' from fun e => h e.symm]
  | cons p d ih =>
      by_cases h1 : p.1 = k
      · by_cases h2 : k' = k
        · subst h2; simp [dictInsert, dictGet, h1]
        · simp [dictInsert, dictGet, h1, h2, show ¬ k = k' from fun e => h2 e.symm]
      · by_cases h3 : p.1 = k'
        · have h4 : ¬ k' = k := fun e => h1 (h3.trans e)
          simp [dictInsert, dictGet, h1, h3, h4]
        · simp [dictInsert, dictGet, h1, h3, ih]

/-- Inserting a fresh pair into both maps preserves the inverse invariant. -/
theorem invDicts_insert {m1 m2 : List (String × String)} {a b : String}
    (hinv : invDicts m1 m2) (ha : dictGet m1 a = none)
    (hb : dictGet m2 b = none) :
    invDicts (dictInsert m1 a b) (dictInsert m2 b a) := by
  intro k v
  rw [dictGet_insert, dictGet_insert]
  by_cases hk : k = a
  · subst hk
    by_cases hv : v = b
    · subst hv; simp
    · rw [if_pos rfl, if_neg hv]
      constructor
      · intro h; exact absurd (Option.some.inj h) (fun e => hv e.symm)
      · intro h
        have := (hinv k v).mpr h
        rw [ha] at this
        exact Option.noConfusion this
  · by_cases hv : v = b
    · subst hv
      rw [if_neg hk, if_pos rfl]
      constructor
      · intro h
        have := (hinv k v).mp h
        rw [hb] at this
        exact Option.noConfusion this
      · intro h; exact absurd (Option.some.inj h) (fun e => hk e.symm)
    · rw [if_neg hk, if_neg hv]; exact hinv k v

/-- If the forward map is empty, the inverse invariant forces every reverse
lookup to fail as well. -/
theorem invDicts_nilGet {m2 : List (String × String)} (h : invDicts [] m2) :
    ∀ c, dictGet m2 c = none := by
  intro c
  cases hc : dictGet m2 c with
  | none => rfl
  | some k =>
      have := (h k c).mpr hc
      simp [dictGet] at this

/-! ### C8: learning loop -/

/-- The source numbers the learning loop records form a sublist of the
zero-padded index list, in order. -/
theorem learnTrace_snd_sublist (is : List Nat) :
    ∀ lines : List String,
      ((learnTrace is lines).map Prod.snd).Sublist
        (is.map fun i => zfill 2 (toString i)) := by
  induction is with
  | nil => intro lines; simp [learnTrace]
  | cons i is ih =>
      intro lines
      simp only [learnTrace, List.map_cons]
      cases hres : (telnet_request false lines ("?RGB" ++ zfill 2 (toString i)) "RGB").1 with
      | none => simp only [hres]; exact List.Sublist.cons _ (ih _)
      | some t =>
          simp only [hres]
          by_cases he : t = ""
          · rw [if_pos he]; exact List.Sublist.cons _ (ih _)
          · rw [if_neg he]
            simp only [List.map_cons]
            exact List.Sublist.cons₂ _ (ih _)

/-- The 60 zero-padded registry indices are pairwise distinct. -/
theorem zfillRangeNodup :
    ((List.range MAX_SOURCE_NUMBERS).map fun i => zfill 2 (toString i)).Nodup := by
  decide

/-- Soundness of the learning loop: starting from inverse maps, if the
learned names are pairwise distinct and fresh (and likewise the learned
numbers), the resulting maps are still exact inverses, every old entry
survives, and every reverse-map key was either already present or was
recorded by this pass. -/
theorem learnSources_sound (is : List Nat) :
    ∀ (lines : List String) (m1 m2 : List (String × String)),
      invDicts m1 m2 →
      ((learnTrace is lines).map Prod.fst).Nodup →
      ((learnTrace is lines).map Prod.snd).Nodup →
      (∀ p ∈ learnTrace is lines, dictGet m1 p.1 = none) →
      (∀ p ∈ learnTrace is lines, dictGet m2 p.2 = none) →
      invDicts (learnSources is lines (m1, m2)).1.1 (learnSources is lines (m1, m2)).1.2 ∧
      (∀ k v, dictGet m1 k = some v → dictGet (learnSources is lines (m1, m2)).1.1 k = some v) ∧
      (∀ k v, dictGet m2 k = some v → dictGet (learnSources is lines (m1, m2)).1.2 k = some v) ∧
      (∀ c, dictGet (learnSources is lines (m1, m2)).1.2 c ≠ none →
        dictGet m2 c ≠ none ∨ ∃ p ∈ learnTrace is lines, p.2 = c) := by
  induction is with
  | nil =>
      intro lines m1 m2 hinv _ _ _ _
      exact ⟨hinv, fun _ _ h => h, fun _ _ h => h, fun _ hc => Or.inl hc⟩
  | cons i is ih =>
      intro lines m1 m2 hinv hn1 hn2 hf1 hf2
      simp only [learnTrace] at hn1 hn2 hf1 hf2
      simp only [learnSources, learnTrace]
      cases hres : (telnet_request false lines ("?RGB" ++ zfill 2 (toString i)) "RGB").1 with
      | none =>
          simp only [hres] at hn1 hn2 hf1 hf2 ⊢
          exact ih _ m1 m2 hinv hn1 hn2 hf1 hf2
      | some t =>
          simp only [hres] at hn1 hn2 hf1 hf2 ⊢
          by_cases he : t = ""
          · simp only [if_pos he] at hn1 hn2 hf1 hf2 ⊢
            exact ih _ m1 m2 hinv hn1 hn2 hf1 hf2
          · simp only [if_neg he] at hn1 hn2 hf1 hf2 ⊢
            simp only [List.map_cons, List.nodup_cons] at hn1 hn2
            have hft1 := hf1 _ (List.mem_cons_self _ _)
            have hft2 := hf2 _ (List.mem_cons_self _ _)
            have hinv' := invDicts_insert hinv hft1 hft2
            have hf1' : ∀ p ∈ learnTrace is
                (telnet_request false lines ("?RGB" ++ zfill 2 (toString i)) "RGB").2,
                dictGet (dictInsert m1 (strDrop t 6) (zfill 2 (toString i))) p.1 = none := by
              intro p hp
              rw [dictGet_insert,
                if_neg (show ¬ p.1 = strDrop t 6 from fun e =>
                  hn1.1 (e ▸ List.mem_map_of_mem Prod.fst hp))]
              exact hf1 p (List.mem_cons_of_mem _ hp)
            have hf2' : ∀ p ∈ learnTrace is
                (telnet_request false lines ("?RGB" ++ zfill 2 (toString i)) "RGB").2,
                dictGet (dictInsert m2 (zfill 2 (toString i)) (strDrop t 6)) p.2 = none := by
              intro p hp
              rw [dictGet_insert,
                if_neg (show ¬ p.2 = zfill 2 (toString i) from fun e =>
                  hn2.1 (e ▸ List.mem_map_of_mem Prod.snd hp))]
              exact hf2 p (List.mem_cons_of_mem _ hp)
            obtain ⟨H1, H2, H3, H4⟩ := ih _ _ _ hinv' hn1.2 hn2.2 hf1' hf2'
            refine ⟨H1, ?_, ?_, ?_⟩
            · intro k v hkv
              refine H2 k v ?_
              rw [dictGet_insert, if_neg ?_]
              · exact hkv
              · intro e
                rw [e] at hkv
                rw [hft1] at hkv
                exact Option.noConfusion hkv
            · intro k v hkv
              refine H3 k v ?_
              rw [dictGet_insert, if_neg ?_]
              · exact hkv
              · intro e
                rw [e] at hkv
                rw [hft2] at hkv
                exact Option.noConfusion hkv
            · intro c hc
              rcases H4 c hc with h' | ⟨p, hp, hpe⟩
              · rw [dictGet_insert] at h'
                by_cases hcn : c = zfill 2 (toString i)
                · exact Or.inr ⟨(strDrop t 6, zfill 2 (toString i)),
                    List.mem_cons_self _ _, hcn.symm⟩
                · rw [if_neg hcn] at h'
                  exact Or.inl h'
              · exact Or.inr ⟨p, List.mem_cons_of_mem _ hp, hpe⟩

/-- The learning step preserves the inverse invariant and existing entries,
and — when it runs from an empty map with pairwise distinct learned names —
creates no entry for a skipped registry index. -/
theorem learnStep_maps (s : PioneerDevice) (lines : List String)
    (hinv : invDicts s.source_name_to_number s.source_number_to_name)
    (hnames : s.source_name_to_number = [] →
      ((learnTrace (List.range MAX_SOURCE_NUMBERS) lines).map Prod.fst).Nodup) :
    invDicts (learnStep s lines).1.source_name_to_number
      (learnStep s lines).1.source_number_to_name ∧
    (∀ k v, dictGet s.source_name_to_number k = some v →
      dictGet (learnStep s lines).1.source_name_to_number k = some v) ∧
    (∀ k v, dictGet s.source_number_to_name k = some v →
      dictGet (learnStep s lines).1.source_number_to_name k = some v) ∧
    (s.source_name_to_number = [] →
      ∀ c, (∀ p ∈ learnTrace (List.range MAX_SOURCE_NUMBERS) lines, p.2 ≠ c) →
        dictGet (learnStep s lines).1.source_number_to_name c = none) := by
  simp only [learnStep]
  by_cases h : s.source_name_to_number = []
  · rw [if_pos h]
    have hm2 : ∀ c, dictGet s.source_number_to_name c = none :=
      invDicts_nilGet (h ▸ hinv)
    have hf1 : ∀ p ∈ learnTrace (List.range MAX_SOURCE_NUMBERS) lines,
        dictGet s.source_name_to_number p.1 = none := by
      intro p _; rw [h]; rfl
    have hf2 : ∀ p ∈ learnTrace (List.range MAX_SOURCE_NUMBERS) lines,
        dictGet s.source_number_to_name p.2 = none := fun p _ => hm2 _
    have hn2 : ((learnTrace (List.range MAX_SOURCE_NUMBERS) lines).map Prod.snd).Nodup :=
      zfillRangeNodup.sublist (learnTrace_snd_sublist _ _)
    obtain ⟨H1, H2, H3, H4⟩ := learnSources_sound (List.range MAX_SOURCE_NUMBERS)
      lines s.source_name_to_number s.source_number_to_name hinv (hnames h) hn2 hf1 hf2
    refine ⟨H1, H2, H3, fun _ c hno => ?_⟩
    by_contra hcon
    rcases H4 c hcon with h' | ⟨p, hp, hpe⟩
    · exact h' (hm2 c)
    · exact hno p hp hpe
  · rw [if_neg h]
    exact ⟨hinv, fun _ _ hv => hv, fun _ _ hv => hv, fun he => absurd he h⟩

/-! ### C8: poll-level statements -/

/-- Shape of a successful volume step: only the volume field changes, and the
remaining stream is what the volume query left over. -/
theorem volStep_ok_shape {zc : ZoneCommandSet} {s : PioneerDevice}
    {lines : List String} {s' : PioneerDevice} {l' : List String}
    (h : volStep zc s lines = .ok (s', l')) :
    s'.source_name_to_number = s.source_name_to_number ∧
    s'.source_number_to_name = s.source_number_to_name ∧
    l' = (telnet_request false lines zc.VOL.cmd zc.VOL.pfx).2 := by
  simp only [volStep] at h
  cases hv : volVal (telnet_request false lines zc.VOL.cmd zc.VOL.pfx).1 with
  | error e => rw [hv] at h; exact absurd h (by simp)
  | ok v =>
      rw [hv] at h
      simp only [Except.ok.injEq, Prod.mk.injEq] at h
      obtain ⟨h1, h2⟩ := h
      subst h1
      subst h2
      exact ⟨rfl, rfl, rfl⟩

/-- A connected poll whose volume step succeeds runs the remaining steps. -/
theorem update_ok_case {zc : ZoneCommandSet} (s : PioneerDevice)
    (lines : List String) {s2 : PioneerDevice} {l2 : List String}
    (hz : ZONE_COMMANDS s.zone = some zc)
    (hvs : volStep zc (powerStep zc s lines).1 (powerStep zc s lines).2 = .ok (s2, l2)) :
    update s true lines = .ok (true,
      (sourceStep zc (learnStep (muteStep zc s2 l2).1 (muteStep zc s2 l2).2).1
        (learnStep (muteStep zc s2 l2).1 (muteStep zc s2 l2).2).2).1) := by
  simp only [update, hz, if_true, hvs]

/-- A connected poll whose volume step raises propagates the exception. -/
theorem update_error_case {zc : ZoneCommandSet} (s : PioneerDevice)
    (lines : List String) {e : PyErr}
    (hz : ZONE_COMMANDS s.zone = some zc)
    (hvs : volStep zc (powerStep zc s lines).1 (powerStep zc s lines).2 = .error e) :
    update s true lines = .error e := by
  simp only [update, hz, if_true, hvs]

/-- Claim C8 (amended): after construction and after any connected poll of a
supported zone, provided the names recorded by a learning pass are pairwise
distinct, the two source maps are exact inverses, every existing entry is
preserved (never removed), and a learning pass from an empty map creates no
entry for a skipped registry index.  (The distinctness proviso is necessary:
see the counterexample, where two indices reporting the same name break the
inverse.) -/
theorem C8_amended_source_maps (s : PioneerDevice) (lines : List String)
    {zc : ZoneCommandSet} (hz : ZONE_COMMANDS s.zone = some zc)
    (hinv : invDicts s.source_name_to_number s.source_number_to_name)
    (hnames : s.source_name_to_number = [] →
      ((learnTrace (List.range MAX_SOURCE_NUMBERS) (postMuteLines zc lines)).map
        Prod.fst).Nodup) :
    invDicts (updateMaps s lines).1 (updateMaps s lines).2 ∧
    (∀ k v, dictGet s.source_name_to_number k = some v →
      dictGet (updateMaps s lines).1 k = some v) ∧
    (∀ k v, dictGet s.source_number_to_name k = some v →
      dictGet (updateMaps s lines).2 k = some v) ∧
    (s.source_name_to_number = [] →
      ∀ c, (∀ p ∈ learnTrace (List.range MAX_SOURCE_NUMBERS)
          (postMuteLines zc lines), p.2 ≠ c) →
        dictGet (updateMaps s lines).2 c = none) := by
  cases hvs : volStep zc (powerStep zc s lines).1 (powerStep zc s lines).2 with
  | error e =>
      have hupd : updateMaps s lines =
          (s.source_name_to_number, s.source_number_to_name) := by
        unfold updateMaps
        rw [update_error_case s lines hz hvs]
        rfl
      rw [hupd]
      refine ⟨hinv, fun _ _ hv => hv, fun _ _ hv => hv, fun he c _ => ?_⟩
      exact invDicts_nilGet (he ▸ hinv) c
  | ok pr =>
      obtain ⟨s2, l2⟩ := pr
      obtain ⟨e1, e2, e3⟩ := volStep_ok_shape hvs
      have hm1 : (muteStep zc s2 l2).1.source_name_to_number =
          s.source_name_to_number := e1
      have hm2 : (muteStep zc s2 l2).1.source_number_to_name =
          s.source_number_to_name := e2
      have hM2 : (muteStep zc s2 l2).2 = postMuteLines zc lines := by
        simp only [muteStep]
        rw [e3]
        rfl
      have hinvM : invDicts (muteStep zc s2 l2).1.source_name_to_number
          (muteStep zc s2 l2).1.source_number_to_name := by
        rw [hm1, hm2]; exact hinv
      have hnamesM : (muteStep zc s2 l2).1.source_name_to_number = [] →
          ((learnTrace (List.range MAX_SOURCE_NUMBERS)
            ((muteStep zc s2 l2).2)).map Prod.fst).Nodup := by
        intro h
        rw [hM2]
        exact hnames (hm1.symm.trans h)
      obtain ⟨G1, G2, G3, G4⟩ :=
        learnStep_maps (muteStep zc s2 l2).1 (muteStep zc s2 l2).2 hinvM hnamesM
      have hupd : updateMaps s lines =
          ((learnStep (muteStep zc s2 l2).1 (muteStep zc s2 l2).2).1.source_name_to_number,
           (learnStep (muteStep zc s2 l2).1 (muteStep zc s2 l2).2).1.source_number_to_name) := by
        unfold updateMaps
        rw [update_ok_case s lines hz hvs]
        rfl
      rw [hupd]
      refine ⟨G1, ?_, ?_, ?_⟩
      · intro k v hkv
        exact G2 k v (by rw [hm1]; exact hkv)
      · intro k v hkv
        exact G3 k v (by rw [hm2]; exact hkv)
      · intro he c hc
        refine G4 (hm1.symm ▸ he) c ?_
        intro p hp
        exact hc p (hM2 ▸ hp)

/-- Witness for the amended C8: a configured zone-1 instance polled on an
exhausted stream keeps its configured DVD entry. -/
theorem C8_amended_source_maps_witness :
    dictGet (updateMaps (pioneerInit ["DVD"] 1) []).1 "DVD" = some "04" :=
  (C8_amended_source_maps (pioneerInit ["DVD"] 1) [] rfl
    (by
      intro k v
      constructor
      · intro h
        simp only [dictGet] at h
        by_cases hk : k = "DVD"
        · subst hk
          rw [if_pos rfl] at h
          simp only [Option.some.injEq] at h
          subst h
          decide
        · rw [if_neg (fun e : ("DVD" : String) = k => hk e.symm)] at h
          exact Option.noConfusion h
      · intro h
        simp only [dictGet] at h
        by_cases hv : v = "04"
        · subst hv
          rw [if_pos rfl] at h
          simp only [Option.some.injEq] at h
          subst h
          decide
        · rw [if_neg (fun e : ("04" : String) = v => hv e.symm)] at h
          exact Option.noConfusion h)
    (fun h => absurd h (by decide))).2.1 "DVD" "04" (by decide)

/-- The duplicate-name scenario: zone 1, empty allowlist, power, volume and
mute replies followed by registry replies whose indices 0 and 1 both report
the source name `"X"`; indices 2 to 59 return no data. -/
def learnDemoLines : List String :=
  ["PWR0", "VOL000", "MUT1", "RGB001X", "RGB011X"]

/-- Claim C8 counterexample: after that learning pass, the reverse map sends
both `"00"` and `"01"` to `"X"` while the forward map sends `"X"` to `"01"`
only, so the two maps are not exact inverses. -/
theorem C8_counterexample :
    dictGet (updateMaps (pioneerInit [] 1) learnDemoLines).2 "00" = some "X" ∧
    dictGet (updateMaps (pioneerInit [] 1) learnDemoLines).1 "X" = some "01" ∧
    ¬ invDicts (updateMaps (pioneerInit [] 1) learnDemoLines).1
      (updateMaps (pioneerInit [] 1) learnDemoLines).2 := by
  refine ⟨by decide, by decide, fun h => ?_⟩
  have h1 : dictGet (updateMaps (pioneerInit [] 1) learnDemoLines).1 "X" = some "00" :=
    (h "X" "00").mpr (by decide)
  have h2 : dictGet (updateMaps (pioneerInit [] 1) learnDemoLines).1 "X" = some "01" :=
    by decide
  rw [h1] at h2
  exact absurd (Option.some.inj h2) (by decide)

end Pioneer
